import Mathlib

/-!
The publisher of image_transport (image_publisher.cpp)

A shallow embedding of the multi-transport publisher of `image_transport`:
the shared state block `Publisher::Impl`, the reference-counted handle
`Publisher`, and its operations `advertise`, `getNumSubscribers`, `getTopic`,
`getTopicMap`, `publish` and `shutdown`.

Collaborators that live outside the file are taken as parameters:

* the transport plugins (`PublisherPlugin`, an abstract interface) are a
  record of operations `PluginOps σ` over an arbitrary plugin state `σ`;
* the plugin registry (`pluginlib::ClassLoader`) is a record `ClassLoader σ`
  with the declared lookup names and a fallible instantiation function;
* the node handle contributes `resolveName`; `setParam`, the warning log and
  every call made on a plugin are recorded as events, in program order.

Plugin operations are taken to return normally; the registry's
`createClassInstance` is the only call that may fail (with a load error, a
`std::runtime_error`).
-/

namespace image_transport

/-! ## Strings: `boost::erase_last` -/

/-- Search part of `boost::erase_last` on character sequences: when `pat` occurs
in `s`, the sequence `s` with the occurrence of greatest start position removed;
`none` when `pat` does not occur. -/
def eraseLastAux (pat : List Char) : List Char → Option (List Char)
  | [] => if pat = [] then some [] else none
  | c :: rest =>
    match eraseLastAux pat rest with
    | some r => some (c :: r)
    | none => if pat.isPrefixOf (c :: rest) then some ((c :: rest).drop pat.length) else none

/-- The call `boost::erase_last(input, search)`: the last occurrence of `search`
is erased from `input`; the input is unchanged when there is none. -/
def erase_last (input search : String) : String :=
  match eraseLastAux search.data input.data with
  | some r => String.mk r
  | none => input

/-! ## The topic map: `std::map<std::string, std::string>` -/

/-- The type `Publisher::TransportTopicMap`, a `std::map` from transport name to
sub-topic override, held as its entries in iteration (ascending key) order. -/
abbrev TransportTopicMap := List (String × String)

namespace TransportTopicMap

/-- The keys in iteration order. -/
def keys (m : TransportTopicMap) : List String := m.map Prod.fst

/-- The C++ statement `m[k] = v`: the entry of `k` is overwritten when present,
and inserted at its place in key order otherwise. -/
def assign : TransportTopicMap → String → String → TransportTopicMap
  | [], k, v => [(k, v)]
  | (k', v') :: rest, k, v =>
    if k.data < k'.data then (k, v) :: (k', v') :: rest
    else if k = k' then (k, v) :: rest
    else (k', v') :: assign rest k v

/-- The C++ call `m.erase(k)`. -/
def erase (m : TransportTopicMap) (k : String) : TransportTopicMap :=
  m.filter (fun e => e.1 ≠ k)

/-- The C++ call `m.clear()`. -/
def clear (_m : TransportTopicMap) : TransportTopicMap := []

/-- Representation invariant of a `std::map`: keys strictly ascending. -/
def Sorted (m : TransportTopicMap) : Prop := m.keys.Pairwise (fun a b => a.data < b.data)

end TransportTopicMap

/-! ## Collaborators -/

/-- Number of values of a `uint32_t`. -/
def UINT32_MOD : Nat := 4294967296

/-- A `ros::SubscriberStatusCallback`; `none` is the empty (default-constructed)
callback. -/
abbrev SubscriberStatusCallback := Option Nat

/-- A `ros::VoidPtr`; `none` is the null pointer. -/
abbrev VoidPtr := Option Nat

/-- A `sensor_msgs::Image` message. -/
structure Image where
  height : Nat
  width : Nat
  data : List Nat
deriving DecidableEq, Repr

/-- The part of `ros::NodeHandle` the publisher reads: name resolution.  Writes
to the parameter server are recorded as events. -/
structure NodeHandle where
  resolveName : String → String

/-- The abstract interface `PublisherPlugin`, over plugin instances of state
`σ`.  Subscriber counts are `uint32_t` values. -/
structure PluginOps (σ : Type) where
  getTransportName : σ → String
  getDefaultTopic : σ → String → String
  advertise : σ → NodeHandle → String → Nat → SubscriberStatusCallback →
    SubscriberStatusCallback → VoidPtr → Bool → σ
  getNumSubscribers : σ → Nat
  getNumSubscribers_lt : ∀ pub, getNumSubscribers pub < UINT32_MOD
  publish : σ → Image → σ
  shutdown : σ → σ

/-- The registry `pluginlib::ClassLoader<PublisherPlugin>`: the declared lookup
names, and instantiation by lookup name, which fails with the text of a
`std::runtime_error`. -/
structure ClassLoader (σ : Type) where
  getDeclaredClasses : List String
  createClassInstance : String → Except String σ

/-- Calls that leave the publisher, in program order.  `index` is the position of
the plugin instance in `Impl::publishers`. -/
inductive Event where
  | resolveName (topic : String)
  | createClassInstance (lookup_name : String)
  | setParam (key value : String)
  | advertise (index : Nat) (sub_topic : String) (queue_size : Nat)
      (connect_cb disconnect_cb : SubscriberStatusCallback) (tracked_object : VoidPtr)
      (latch : Bool)
  | warn (lookup_name what : String)
  | publish (index : Nat) (message : Image)
  | shutdown (index : Nat)
deriving DecidableEq, Repr

/-! ## The state block `Publisher::Impl` and the method bodies -/

/-- The struct `Publisher::Impl`. -/
structure Impl (σ : Type) where
  topic : String
  loader : ClassLoader σ
  publishers : List σ
  topic_map : TransportTopicMap

set_option linter.dupNamespace false

section bodies

variable {σ : Type}

/-- Loop of `Publisher::Impl::shutdown` from position `i` of the collection. -/
def shutdownLoop (ops : PluginOps σ) : Nat → List σ → List σ × List Event
  | _, [] => ([], [])
  | i, pub :: rest =>
    let r := shutdownLoop ops (i + 1) rest
    (ops.shutdown pub :: r.1, Event.shutdown i :: r.2)

/-- The method `Publisher::Impl::shutdown`: every instance of the collection is shut
down; the collection itself is kept. -/
def Impl.shutdown (ops : PluginOps σ) (impl : Impl σ) : Impl σ × List Event :=
  let r := shutdownLoop ops 0 impl.publishers
  ({ impl with publishers := r.1 }, r.2)

/-- Loop of the default constructor over the declared lookup names. -/
def constructLoop : List String → TransportTopicMap → TransportTopicMap
  | [], topic_map => topic_map
  | lookup_name :: rest, topic_map =>
    constructLoop rest (topic_map.assign (erase_last lookup_name "_pub") "")

/-- The default constructor `Publisher::Publisher()`: a new state block whose topic
map has one entry per declared plugin, with the default (empty) sub-topic. -/
def Publisher.Publisher (loader : ClassLoader σ) : Impl σ :=
  { topic := "", loader := loader, publishers := [],
    topic_map := constructLoop loader.getDeclaredClasses [] }

/-- Loop of `Publisher::advertise` over the entries of the topic map; `publishers`
is the collection so far. -/
def advertiseLoop (ops : PluginOps σ) (loader : ClassLoader σ) (nh : NodeHandle)
    (topic : String) (queue_size : Nat) (connect_cb disconnect_cb : SubscriberStatusCallback)
    (tracked_object : VoidPtr) (latch : Bool) :
    List (String × String) → List σ → List σ × List Event
  | [], publishers => (publishers, [])
  | value :: rest, publishers =>
    let lookup_name := value.1 ++ "_pub"
    match loader.createClassInstance lookup_name with
    | .ok pub =>
      let sub_topic := if value.2.isEmpty then ops.getDefaultTopic pub topic else value.2
      let r := advertiseLoop ops loader nh topic queue_size connect_cb disconnect_cb
        tracked_object latch rest
        (publishers ++
          [ops.advertise pub nh sub_topic queue_size connect_cb disconnect_cb tracked_object
            latch])
      (r.1, [Event.createClassInstance lookup_name,
             Event.setParam (sub_topic ++ "/transport_type") (ops.getTransportName pub),
             Event.advertise publishers.length sub_topic queue_size connect_cb disconnect_cb
               tracked_object latch] ++ r.2)
    | .error what =>
      let r := advertiseLoop ops loader nh topic queue_size connect_cb disconnect_cb
        tracked_object latch rest publishers
      (r.1, [Event.createClassInstance lookup_name, Event.warn lookup_name what] ++ r.2)

/-- The method `Publisher::advertise` (seven-argument form). -/
def Publisher.advertise (ops : PluginOps σ) (impl : Impl σ) (nh : NodeHandle) (topic : String)
    (queue_size : Nat) (connect_cb disconnect_cb : SubscriberStatusCallback)
    (tracked_object : VoidPtr) (latch : Bool) : Impl σ × List Event :=
  let resolved := nh.resolveName topic
  let r := advertiseLoop ops impl.loader nh resolved queue_size connect_cb disconnect_cb
    tracked_object latch impl.topic_map impl.publishers
  ({ impl with topic := resolved, publishers := r.1 }, Event.resolveName topic :: r.2)

/-- The convenience overload of `Publisher::advertise` without callbacks. -/
def Publisher.advertise_simple (ops : PluginOps σ) (impl : Impl σ) (nh : NodeHandle)
    (topic : String) (queue_size : Nat) (latch : Bool) : Impl σ × List Event :=
  Publisher.advertise ops impl nh topic queue_size none none none latch

/-- The method `Publisher::getNumSubscribers`, with `uint32_t` accumulation. -/
def Publisher.getNumSubscribers (ops : PluginOps σ) (impl : Impl σ) : Nat :=
  impl.publishers.foldl (fun count pub => (count + ops.getNumSubscribers pub) % UINT32_MOD) 0

/-- The method `Publisher::getTopic`. -/
def Publisher.getTopic (impl : Impl σ) : String := impl.topic

/-- The method `Publisher::getTopicMap`. -/
def Publisher.getTopicMap (impl : Impl σ) : TransportTopicMap := impl.topic_map

/-- Loop of `Publisher::publish` from position `i` of the collection. -/
def publishLoop (ops : PluginOps σ) (message : Image) : Nat → List σ → List σ × List Event
  | _, [] => ([], [])
  | i, pub :: rest =>
    let r := publishLoop ops message (i + 1) rest
    if ops.getNumSubscribers pub > 0 then
      (ops.publish pub message :: r.1, Event.publish i message :: r.2)
    else (pub :: r.1, r.2)

/-- The method `Publisher::publish`. -/
def Publisher.publish (ops : PluginOps σ) (impl : Impl σ) (message : Image) :
    Impl σ × List Event :=
  let r := publishLoop ops message 0 impl.publishers
  ({ impl with publishers := r.1 }, r.2)

/-- The method `Publisher::shutdown`. -/
def Publisher.shutdown (ops : PluginOps σ) (impl : Impl σ) : Impl σ × List Event :=
  impl.shutdown ops

end bodies

/-! ## Handles sharing a state block -/

/-- The class `Publisher`: a handle whose only member `impl_` is a shared pointer
to a state block, held as the block's address in the heap. -/
structure Publisher where
  impl_ : Nat
deriving DecidableEq, Repr

/-- The heap of state blocks, with the calls made so far, each tagged with the
address of the block it was made from. -/
structure World (σ : Type) where
  heap : List (Impl σ)
  trace : List (Nat × Event)

/-- Operations of the public interface that change state.  The three map
operations are what a caller does through the reference `getTopicMap()` returns. -/
inductive Op where
  | advertise (nh : NodeHandle) (topic : String) (queue_size : Nat)
      (connect_cb disconnect_cb : SubscriberStatusCallback) (tracked_object : VoidPtr)
      (latch : Bool)
  | publish (message : Image)
  | assign (k v : String)
  | erase (k : String)
  | clear
  | shutdown

section handles

variable {σ : Type}

/-- The state block a handle points to. -/
def World.deref (w : World σ) (self : Publisher) : Option (Impl σ) := w.heap[self.impl_]?

/-- Run a method body on the block `self.impl_` points to.  A handle made by a
constructor always points into the heap; for an address outside it nothing happens. -/
def World.update (w : World σ) (self : Publisher) (body : Impl σ → Impl σ × List Event) :
    World σ :=
  match w.heap[self.impl_]? with
  | none => w
  | some impl =>
    let r := body impl
    { heap := w.heap.set self.impl_ r.1, trace := w.trace ++ r.2.map (fun e => (self.impl_, e)) }

/-- The default constructor `Publisher::Publisher()` with `impl_(new Impl)`. -/
def World.newPublisher (w : World σ) (loader : ClassLoader σ) : World σ × Publisher :=
  ({ w with heap := w.heap ++ [Publisher.Publisher loader] }, { impl_ := w.heap.length })

/-- The copy constructor `Publisher::Publisher(const Publisher& rhs)` with
`impl_(rhs.impl_)`. -/
def World.copyPublisher (w : World σ) (rhs : Publisher) : World σ × Publisher :=
  (w, { impl_ := rhs.impl_ })

/-- The method `Publisher::advertise` through a handle. -/
def World.advertise (ops : PluginOps σ) (w : World σ) (self : Publisher) (nh : NodeHandle)
    (topic : String) (queue_size : Nat) (connect_cb disconnect_cb : SubscriberStatusCallback)
    (tracked_object : VoidPtr) (latch : Bool) : World σ :=
  w.update self (fun impl =>
    Publisher.advertise ops impl nh topic queue_size connect_cb disconnect_cb tracked_object
      latch)

/-- The method `Publisher::publish` through a handle. -/
def World.publish (ops : PluginOps σ) (w : World σ) (self : Publisher) (message : Image) :
    World σ :=
  w.update self (fun impl => Publisher.publish ops impl message)

/-- The method `Publisher::shutdown` through a handle. -/
def World.shutdown (ops : PluginOps σ) (w : World σ) (self : Publisher) : World σ :=
  w.update self (fun impl => Publisher.shutdown ops impl)

/-- A write through the reference returned by `getTopicMap()`. -/
def World.mutateTopicMap (w : World σ) (self : Publisher)
    (f : TransportTopicMap → TransportTopicMap) : World σ :=
  w.update self (fun impl => ({ impl with topic_map := f impl.topic_map }, []))

/-- The method `Publisher::getNumSubscribers` through a handle. -/
def World.getNumSubscribers (ops : PluginOps σ) (w : World σ) (self : Publisher) :
    Option Nat :=
  (w.deref self).map (Publisher.getNumSubscribers ops)

/-- The method `Publisher::getTopic` through a handle. -/
def World.getTopic (w : World σ) (self : Publisher) : Option String :=
  (w.deref self).map Publisher.getTopic

/-- The method `Publisher::getTopicMap` through a handle. -/
def World.getTopicMap (w : World σ) (self : Publisher) : Option TransportTopicMap :=
  (w.deref self).map Publisher.getTopicMap

/-- One operation through a handle. -/
def World.step (ops : PluginOps σ) (w : World σ) (self : Publisher) : Op → World σ
  | .advertise nh topic queue_size connect_cb disconnect_cb tracked_object latch =>
    World.advertise ops w self nh topic queue_size connect_cb disconnect_cb tracked_object latch
  | .publish message => World.publish ops w self message
  | .assign k v => w.mutateTopicMap self (fun m => m.assign k v)
  | .erase k => w.mutateTopicMap self (fun m => m.erase k)
  | .clear => w.mutateTopicMap self (fun m => m.clear)
  | .shutdown => World.shutdown ops w self

/-- A script of operations, each made through the handle `a` (tag `false`) or the
handle `b` (tag `true`). -/
def World.run (ops : PluginOps σ) (a b : Publisher) : World σ → List (Bool × Op) → World σ
  | w, [] => w
  | w, (viaB, op) :: rest => World.run ops a b (World.step ops w (if viaB then b else a) op) rest

/-- One operation on a state block. -/
def Publisher.step (ops : PluginOps σ) (impl : Impl σ) : Op → Impl σ × List Event
  | .advertise nh topic queue_size connect_cb disconnect_cb tracked_object latch =>
    Publisher.advertise ops impl nh topic queue_size connect_cb disconnect_cb tracked_object
      latch
  | .publish message => Publisher.publish ops impl message
  | .assign k v => ({ impl with topic_map := impl.topic_map.assign k v }, [])
  | .erase k => ({ impl with topic_map := impl.topic_map.erase k }, [])
  | .clear => ({ impl with topic_map := impl.topic_map.clear }, [])
  | .shutdown => Publisher.shutdown ops impl

/-- A sequence of operations on a state block. -/
def Publisher.run (ops : PluginOps σ) : Impl σ → List Op → Impl σ
  | impl, [] => impl
  | impl, op :: rest => Publisher.run ops (Publisher.step ops impl op).1 rest

end handles

/-! ## A test transport -/

/-- A fake transport: it reports the subscriber count it was given, and either
keeps that count or drops it to zero when shut down. -/
structure FakePlugin where
  transport_name : String
  subscribers : Nat
  keeps_count_on_shutdown : Bool
  advertised_on : Option String
  published : List Image
deriving DecidableEq, Repr

/-- Operations of the fake transport; the default topic is the base topic followed
by a slash and the transport name. -/
def fakeOps : PluginOps FakePlugin where
  getTransportName := fun pub => pub.transport_name
  getDefaultTopic := fun pub base_topic => base_topic ++ "/" ++ pub.transport_name
  advertise := fun pub _ sub_topic _ _ _ _ _ => { pub with advertised_on := some sub_topic }
  getNumSubscribers := fun pub => pub.subscribers % UINT32_MOD
  getNumSubscribers_lt := fun _ => Nat.mod_lt _ (by decide)
  publish := fun pub message => { pub with published := pub.published ++ [message] }
  shutdown := fun pub =>
    if pub.keeps_count_on_shutdown then pub else { pub with subscribers := 0 }

/-- A fake transport with the given name and subscriber count. -/
def fake (name : String) (subscribers : Nat) (keeps : Bool) : FakePlugin :=
  { transport_name := name, subscribers := subscribers, keeps_count_on_shutdown := keeps,
    advertised_on := none, published := [] }

/-- A registry that declares the given lookup names and instantiates, for each name
of `registered`, a fake transport with the paired subscriber count. -/
def fakeLoader (declared : List String) (registered : List (String × Nat)) (keeps : Bool) :
    ClassLoader FakePlugin where
  getDeclaredClasses := declared
  createClassInstance := fun lookup_name =>
    match registered.find? (fun e => e.1 = lookup_name) with
    | some e => .ok (fake (erase_last lookup_name "_pub") e.2 keeps)
    | none => .error ("class " ++ lookup_name ++ " is not registered")

/-- A node handle in the root namespace: names are resolved to themselves. -/
def rootHandle : NodeHandle := { resolveName := fun topic => topic }

/-- A test message. -/
def testImage : Image := { height := 1, width := 2, data := [7, 8] }

/-- The state block of a publisher built over the fake registry and advertised on
the base topic `/cam` with queue size 1. -/
def advertisedFake (declared : List String) (registered : List (String × Nat))
    (keeps : Bool) : Impl FakePlugin :=
  (Publisher.advertise fakeOps (Publisher.Publisher (fakeLoader declared registered keeps))
    rootHandle "/cam" 1 none none none false).1

/-- The world in which one publisher was constructed over the fake registry and
advertised on the base topic `/cam`, with the handle of that publisher. -/
def fakeWorld (declared : List String) (registered : List (String × Nat)) (keeps : Bool) :
    World FakePlugin × Publisher :=
  let r := World.newPublisher { heap := [], trace := [] } (fakeLoader declared registered keeps)
  (World.advertise fakeOps r.1 r.2 rootHandle "/cam" 1 none none none false, r.2)

/-- The sub-topic `Publisher::advertise` chooses for an entry whose plugin is `pub`. -/
def effectiveTopic {σ : Type} (ops : PluginOps σ) (base_topic : String)
    (value : String × String) (pub : σ) : String :=
  if value.2.isEmpty then ops.getDefaultTopic pub base_topic else value.2

/-- The event is a call of a plugin's `advertise`. -/
def Event.isAdvertise : Event → Bool
  | .advertise _ _ _ _ _ _ _ => true
  | _ => false

/-- The event is a call of `resolveName`. -/
def Event.isResolveName : Event → Bool
  | .resolveName _ => true
  | _ => false

/-- The operation is a call of `advertise`. -/
def Op.isAdvertise : Op → Bool
  | .advertise _ _ _ _ _ _ _ => true
  | _ => false

/-! ## Lemmas on `erase_last` -/

theorem eraseLastAux_append_pub (t : List Char) :
    eraseLastAux "_pub".data (t ++ "_pub".data) = some t := by
  induction t with
  | nil => decide
  | cons c t ih =>
    show eraseLastAux "_pub".data (c :: (t ++ "_pub".data)) = some (c :: t)
    rw [eraseLastAux, ih]

theorem erase_last_append_pub (t : String) : erase_last (t ++ "_pub") "_pub" = t := by
  unfold erase_last
  rw [String.data_append, eraseLastAux_append_pub]

namespace TransportTopicMap

theorem mem_keys_assign (m : TransportTopicMap) (k v a : String) :
    a ∈ (m.assign k v).keys ↔ a = k ∨ a ∈ m.keys := by
  induction m with
  | nil => simp [assign, keys]
  | cons e rest ih =>
    obtain ⟨k', v'⟩ := e
    unfold assign
    by_cases h1 : k.data < k'.data
    · rw [if_pos h1]
      simp [keys]
    · by_cases h2 : k = k'
      · subst h2
        rw [if_neg h1, if_pos rfl]
        simp [keys]
      · rw [if_neg h1, if_neg h2]
        simp only [keys, List.map_cons, List.mem_cons] at ih ⊢
        rw [ih]
        tauto

theorem mem_assign (m : TransportTopicMap) (k v : String) (e : String × String)
    (h : e ∈ m.assign k v) : e = (k, v) ∨ e ∈ m := by
  induction m with
  | nil => simpa [assign] using h
  | cons e' rest ih =>
    obtain ⟨k', v'⟩ := e'
    unfold assign at h
    by_cases h1 : k.data < k'.data
    · rw [if_pos h1] at h
      simpa using h
    · by_cases h2 : k = k'
      · subst h2
        rw [if_neg h1, if_pos rfl, List.mem_cons] at h
        rcases h with h | h
        · exact Or.inl h
        · exact Or.inr (List.mem_cons_of_mem _ h)
      · rw [if_neg h1, if_neg h2, List.mem_cons] at h
        rcases h with h | h
        · exact Or.inr (h ▸ List.mem_cons_self _ _)
        · rcases ih h with h | h
          · exact Or.inl h
          · exact Or.inr (List.mem_cons_of_mem _ h)

theorem sorted_assign (m : TransportTopicMap) (k v : String) (hm : m.Sorted) :
    (m.assign k v).Sorted := by
  induction m with
  | nil => simp [assign, Sorted, keys]
  | cons e rest ih =>
    obtain ⟨k', v'⟩ := e
    have hm' : (∀ a ∈ keys rest, k'.data < a.data) ∧ Sorted rest := by
      simpa [Sorted, keys] using hm
    unfold assign
    by_cases h1 : k.data < k'.data
    · rw [if_pos h1]
      show List.Pairwise _ (k :: k' :: keys rest)
      refine List.Pairwise.cons ?_ hm
      intro a ha
      rcases List.mem_cons.1 ha with ha | ha
      · exact ha ▸ h1
      · exact lt_trans h1 (hm'.1 a ha)
    · by_cases h2 : k = k'
      · subst h2
        rw [if_neg h1, if_pos rfl]
        exact hm
      · rw [if_neg h1, if_neg h2]
        show List.Pairwise _ (k' :: keys (assign rest k v))
        refine List.Pairwise.cons ?_ (ih hm'.2)
        intro a ha
        rcases (mem_keys_assign rest k v a).1 ha with ha | ha
        · subst ha
          have hne : k'.data ≠ a.data := fun h => h2 (String.toList_inj.1 h).symm
          exact lt_of_le_of_ne (not_lt.mp h1) hne
        · exact hm'.1 a ha

end TransportTopicMap

theorem constructLoop_invariant (declared : List String) (m : TransportTopicMap)
    (hs : m.Sorted) (hv : ∀ e ∈ m, e.2 = "") :
    (constructLoop declared m).Sorted ∧
    (∀ e ∈ constructLoop declared m, e.2 = "") ∧
    (∀ a, a ∈ (constructLoop declared m).keys ↔
      a ∈ m.keys ∨ ∃ d ∈ declared, a = erase_last d "_pub") := by
  induction declared generalizing m with
  | nil => exact ⟨hs, hv, by simp [constructLoop]⟩
  | cons d rest ih =>
    have hv' : ∀ e ∈ m.assign (erase_last d "_pub") "", e.2 = "" := by
      intro e he
      rcases TransportTopicMap.mem_assign m _ _ e he with h | h
      · rw [h]
      · exact hv e h
    obtain ⟨h1, h2, h3⟩ := ih (m.assign (erase_last d "_pub") "")
      (TransportTopicMap.sorted_assign m _ _ hs) hv'
    refine ⟨h1, h2, ?_⟩
    intro a
    rw [constructLoop, h3, TransportTopicMap.mem_keys_assign]
    simp only [List.mem_cons, exists_eq_or_imp]
    tauto

/-! ## Lemmas on the loops -/

section loops

variable {σ : Type}

theorem advertiseLoop_cons_ok (ops : PluginOps σ) (loader : ClassLoader σ) (nh : NodeHandle)
    (topic : String) (queue_size : Nat) (connect_cb disconnect_cb : SubscriberStatusCallback)
    (tracked_object : VoidPtr) (latch : Bool) (value : String × String)
    (rest : List (String × String)) (publishers : List σ) (pub : σ)
    (h : loader.createClassInstance (value.1 ++ "_pub") = .ok pub) :
    advertiseLoop ops loader nh topic queue_size connect_cb disconnect_cb tracked_object latch
        (value :: rest) publishers =
      ((advertiseLoop ops loader nh topic queue_size connect_cb disconnect_cb tracked_object
          latch rest
          (publishers ++ [ops.advertise pub nh (effectiveTopic ops topic value pub) queue_size
            connect_cb disconnect_cb tracked_object latch])).1,
        [Event.createClassInstance (value.1 ++ "_pub"),
         Event.setParam (effectiveTopic ops topic value pub ++ "/transport_type")
           (ops.getTransportName pub),
         Event.advertise publishers.length (effectiveTopic ops topic value pub) queue_size
           connect_cb disconnect_cb tracked_object latch] ++
        (advertiseLoop ops loader nh topic queue_size connect_cb disconnect_cb tracked_object
          latch rest
          (publishers ++ [ops.advertise pub nh (effectiveTopic ops topic value pub) queue_size
            connect_cb disconnect_cb tracked_object latch])).2) := by
  rw [advertiseLoop]
  simp only [h]
  rfl

theorem advertiseLoop_cons_error (ops : PluginOps σ) (loader : ClassLoader σ) (nh : NodeHandle)
    (topic : String) (queue_size : Nat) (connect_cb disconnect_cb : SubscriberStatusCallback)
    (tracked_object : VoidPtr) (latch : Bool) (value : String × String)
    (rest : List (String × String)) (publishers : List σ) (what : String)
    (h : loader.createClassInstance (value.1 ++ "_pub") = .error what) :
    advertiseLoop ops loader nh topic queue_size connect_cb disconnect_cb tracked_object latch
        (value :: rest) publishers =
      ((advertiseLoop ops loader nh topic queue_size connect_cb disconnect_cb tracked_object
          latch rest publishers).1,
        [Event.createClassInstance (value.1 ++ "_pub"),
         Event.warn (value.1 ++ "_pub") what] ++
        (advertiseLoop ops loader nh topic queue_size connect_cb disconnect_cb tracked_object
          latch rest publishers).2) := by
  rw [advertiseLoop]
  simp only [h]

theorem advertiseLoop_mem_create (ops : PluginOps σ) (loader : ClassLoader σ) (nh : NodeHandle)
    (topic : String) (queue_size : Nat) (connect_cb disconnect_cb : SubscriberStatusCallback)
    (tracked_object : VoidPtr) (latch : Bool) (m : List (String × String)) (n : String) :
    ∀ publishers : List σ,
      Event.createClassInstance n ∈
          (advertiseLoop ops loader nh topic queue_size connect_cb disconnect_cb tracked_object
            latch m publishers).2 ↔
        ∃ e ∈ m, n = e.1 ++ "_pub" := by
  induction m with
  | nil => intro publishers; simp [advertiseLoop]
  | cons value rest ih =>
    intro publishers
    cases hc : loader.createClassInstance (value.1 ++ "_pub") with
    | ok pub =>
      rw [advertiseLoop_cons_ok _ _ _ _ _ _ _ _ _ _ _ _ _ hc]
      simp [ih]
    | error what =>
      rw [advertiseLoop_cons_error _ _ _ _ _ _ _ _ _ _ _ _ _ hc]
      simp [ih]

theorem advertiseLoop_resolve_events (ops : PluginOps σ) (loader : ClassLoader σ)
    (nh : NodeHandle) (topic : String) (queue_size : Nat)
    (connect_cb disconnect_cb : SubscriberStatusCallback) (tracked_object : VoidPtr)
    (latch : Bool) (m : List (String × String)) :
    ∀ publishers : List σ,
      (advertiseLoop ops loader nh topic queue_size connect_cb disconnect_cb tracked_object
          latch m publishers).2.filter Event.isResolveName = [] := by
  induction m with
  | nil => intro publishers; simp [advertiseLoop]
  | cons value rest ih =>
    intro publishers
    cases hc : loader.createClassInstance (value.1 ++ "_pub") with
    | ok pub =>
      rw [advertiseLoop_cons_ok _ _ _ _ _ _ _ _ _ _ _ _ _ hc]
      simp [ih, List.filter_cons, Event.isResolveName]
    | error what =>
      rw [advertiseLoop_cons_error _ _ _ _ _ _ _ _ _ _ _ _ _ hc]
      simp [ih, List.filter_cons, Event.isResolveName]

theorem publishLoop_events (ops : PluginOps σ) (message : Image) (l : List σ) :
    ∀ i : Nat, (publishLoop ops message i l).2 =
      ((l.enumFrom i).filter (fun e => decide (0 < ops.getNumSubscribers e.2))).map
        (fun e => Event.publish e.1 message) := by
  induction l with
  | nil => intro i; simp [publishLoop]
  | cons pub rest ih =>
    intro i
    by_cases h : ops.getNumSubscribers pub > 0
    · simp [publishLoop, h, ih, List.enumFrom_cons, List.filter_cons]
    · simp [publishLoop, h, ih, List.enumFrom_cons, List.filter_cons]

theorem publishLoop_publishers (ops : PluginOps σ) (message : Image) (l : List σ) :
    ∀ i : Nat, (publishLoop ops message i l).1 =
      l.map (fun pub => if 0 < ops.getNumSubscribers pub then ops.publish pub message else pub) := by
  induction l with
  | nil => intro i; simp [publishLoop]
  | cons pub rest ih =>
    intro i
    by_cases h : ops.getNumSubscribers pub > 0
    · simp [publishLoop, h, ih]
    · simp [publishLoop, h, ih]

theorem publishLoop_not_mem (ops : PluginOps σ) (message : Image) (l : List σ) :
    ∀ (i k : Nat) (m : Image), k < i → Event.publish k m ∉ (publishLoop ops message i l).2 := by
  induction l with
  | nil => intro i k m _; simp [publishLoop]
  | cons pub rest ih =>
    intro i k m hk
    have hrest := ih (i + 1) k m (Nat.lt_succ_of_lt hk)
    by_cases h : ops.getNumSubscribers pub > 0
    · simp only [publishLoop, h, if_true, List.mem_cons, not_or]
      refine ⟨?_, hrest⟩
      intro heq
      injection heq with h1 _
      omega
    · simpa [publishLoop, h] using hrest

theorem publishLoop_count (ops : PluginOps σ) (message : Image) (l : List σ) :
    ∀ (i j : Nat) (pub : σ), l[j]? = some pub →
      (publishLoop ops message i l).2.count (Event.publish (i + j) message) =
        if 0 < ops.getNumSubscribers pub then 1 else 0 := by
  induction l with
  | nil => intro i j pub h; simp at h
  | cons p rest ih =>
    intro i j pub hj
    cases j with
    | zero =>
      have hp : p = pub := by simpa using hj
      subst hp
      have h0 := List.count_eq_zero_of_not_mem
        (publishLoop_not_mem ops message rest (i + 1) i message (Nat.lt_succ_self i))
      by_cases h : ops.getNumSubscribers p > 0
      · simp [publishLoop, h, h0]
      · simp [publishLoop, h, h0]
    | succ j =>
      have hj' : rest[j]? = some pub := by simpa using hj
      have hrest := ih (i + 1) j pub hj'
      have hidx : i + 1 + j = i + (j + 1) := by omega
      rw [hidx] at hrest
      by_cases h : ops.getNumSubscribers p > 0
      · simp only [publishLoop, h, if_true]
        rw [List.count_cons, hrest]
        have hne : (Event.publish i message == Event.publish (i + (j + 1)) message) = false := by
          simp
        simp [hne]
      · simpa [publishLoop, h] using hrest

theorem shutdownLoop_publishers (ops : PluginOps σ) (l : List σ) :
    ∀ i : Nat, (shutdownLoop ops i l).1 = l.map ops.shutdown := by
  induction l with
  | nil => intro i; simp [shutdownLoop]
  | cons pub rest ih => intro i; simp [shutdownLoop, ih]

theorem shutdownLoop_events (ops : PluginOps σ) (l : List σ) :
    ∀ i : Nat, (shutdownLoop ops i l).2 = (List.range' i l.length).map Event.shutdown := by
  induction l with
  | nil => intro i; simp [shutdownLoop]
  | cons pub rest ih => intro i; simp [shutdownLoop, ih, List.range'_succ]

theorem foldl_count_eq (ops : PluginOps σ) (l : List σ) :
    ∀ acc : Nat, acc < UINT32_MOD →
      l.foldl (fun count pub => (count + ops.getNumSubscribers pub) % UINT32_MOD) acc =
        (acc + (l.map ops.getNumSubscribers).sum) % UINT32_MOD := by
  induction l with
  | nil => intro acc h; simp [Nat.mod_eq_of_lt h]
  | cons pub rest ih =>
    intro acc h
    rw [List.foldl_cons, ih _ (Nat.mod_lt _ (by decide)), List.map_cons, List.sum_cons]
    simp only [UINT32_MOD]
    omega

theorem getNumSubscribers_eq (ops : PluginOps σ) (impl : Impl σ) :
    Publisher.getNumSubscribers ops impl =
      (impl.publishers.map ops.getNumSubscribers).sum % UINT32_MOD := by
  unfold Publisher.getNumSubscribers
  rw [foldl_count_eq ops _ 0 (by decide), Nat.zero_add]

theorem step_preserves (ops : PluginOps σ) (impl : Impl σ) (op : Op)
    (h : op.isAdvertise = false) :
    (Publisher.step ops impl op).1.topic = impl.topic ∧
    (Publisher.step ops impl op).1.publishers.length = impl.publishers.length ∧
    (Publisher.step ops impl op).2.filter Event.isResolveName = [] := by
  cases op with
  | advertise nh topic queue_size connect_cb disconnect_cb tracked_object latch =>
    simp [Op.isAdvertise] at h
  | publish message =>
    refine ⟨rfl, ?_, ?_⟩
    · show (publishLoop ops message 0 impl.publishers).1.length = _
      rw [publishLoop_publishers, List.length_map]
    · show (publishLoop ops message 0 impl.publishers).2.filter _ = _
      rw [publishLoop_events, List.filter_map]
      simp [Function.comp_def, Event.isResolveName]
  | assign k v => exact ⟨rfl, rfl, rfl⟩
  | erase k => exact ⟨rfl, rfl, rfl⟩
  | clear => exact ⟨rfl, rfl, rfl⟩
  | shutdown =>
    refine ⟨rfl, ?_, ?_⟩
    · show (shutdownLoop ops 0 impl.publishers).1.length = _
      rw [shutdownLoop_publishers, List.length_map]
    · show (shutdownLoop ops 0 impl.publishers).2.filter _ = _
      rw [shutdownLoop_events, List.filter_map]
      simp [Function.comp_def, Event.isResolveName]

theorem run_preserves (ops : PluginOps σ) (script : List Op) :
    ∀ impl : Impl σ, (∀ op ∈ script, op.isAdvertise = false) →
      (Publisher.run ops impl script).topic = impl.topic ∧
      (Publisher.run ops impl script).publishers.length = impl.publishers.length := by
  induction script with
  | nil => intro impl _; exact ⟨rfl, rfl⟩
  | cons op rest ih =>
    intro impl h
    have hop := step_preserves ops impl op (h op (List.mem_cons_self _ _))
    have hrest := ih (Publisher.step ops impl op).1
      (fun o ho => h o (List.mem_cons_of_mem _ ho))
    exact ⟨hrest.1.trans hop.1, hrest.2.trans hop.2.1⟩

theorem mem_keys_constructed (loader : ClassLoader σ) (k : String) :
    k ∈ (Publisher.Publisher loader).topic_map.keys ↔
      ∃ d ∈ loader.getDeclaredClasses, k = erase_last d "_pub" := by
  obtain ⟨_, _, h3⟩ := constructLoop_invariant loader.getDeclaredClasses []
    (by simp [TransportTopicMap.Sorted, TransportTopicMap.keys]) (by simp)
  show k ∈ (constructLoop loader.getDeclaredClasses []).keys ↔ _
  rw [h3]
  simp [TransportTopicMap.keys]

theorem deref_update (w : World σ) (self : Publisher) (body : Impl σ → Impl σ × List Event) :
    (w.update self body).deref self = (w.deref self).map (fun impl => (body impl).1) := by
  unfold World.update World.deref
  cases h : w.heap[self.impl_]? with
  | none => simp [h]
  | some impl =>
    have hlt : self.impl_ < w.heap.length := by
      rcases Nat.lt_or_ge self.impl_ w.heap.length with hlt | hge
      · exact hlt
      · rw [List.getElem?_eq_none hge] at h; cases h
    simp [List.getElem?_set, hlt]

theorem deref_step (ops : PluginOps σ) (w : World σ) (self : Publisher) (op : Op) :
    (World.step ops w self op).deref self =
      (w.deref self).map (fun impl => (Publisher.step ops impl op).1) := by
  cases op <;> exact deref_update w self _

theorem deref_shutdown (ops : PluginOps σ) (w : World σ) (self : Publisher) (impl : Impl σ)
    (h : w.deref self = some impl) :
    (World.shutdown ops w self).deref self =
      some { impl with publishers := impl.publishers.map ops.shutdown } := by
  unfold World.shutdown
  rw [deref_update, h]
  simp only [Option.map_some', Publisher.shutdown, Impl.shutdown, shutdownLoop_publishers]

theorem trace_shutdown (ops : PluginOps σ) (w : World σ) (self : Publisher) (impl : Impl σ)
    (h : w.deref self = some impl) :
    (World.shutdown ops w self).trace =
      w.trace ++ (List.range' 0 impl.publishers.length).map
        (fun i => (self.impl_, Event.shutdown i)) := by
  unfold World.deref at h
  unfold World.shutdown World.update
  rw [h]
  simp only [Publisher.shutdown, Impl.shutdown, shutdownLoop_events, List.map_map]
  rfl

end loops

/-! ## The claims -/

section claims

variable {σ : Type}

/-- C1: `Publisher::publish` calls the plugin's `publish` with the message exactly
once on each instance of the collection whose subscriber count is positive, in
collection order, and makes no call on an instance whose count is 0; instances that
are skipped are left as they are. -/
theorem publish_forwards_exactly_to_subscribed (ops : PluginOps σ) (impl : Impl σ)
    (message : Image) :
    (Publisher.publish ops impl message).2 =
        (impl.publishers.enum.filter (fun e => decide (0 < ops.getNumSubscribers e.2))).map
          (fun e => Event.publish e.1 message) ∧
    (∀ (i : Nat) (pub : σ), impl.publishers[i]? = some pub →
        (Publisher.publish ops impl message).2.count (Event.publish i message) =
          if 0 < ops.getNumSubscribers pub then 1 else 0) ∧
    (∀ (i : Nat) (pub : σ) (m : Image), impl.publishers[i]? = some pub →
        ops.getNumSubscribers pub = 0 →
        Event.publish i m ∉ (Publisher.publish ops impl message).2) ∧
    (Publisher.publish ops impl message).1.publishers =
        impl.publishers.map
          (fun pub => if 0 < ops.getNumSubscribers pub then ops.publish pub message else pub) := by
  refine ⟨publishLoop_events ops message impl.publishers 0, ?_, ?_,
    publishLoop_publishers ops message impl.publishers 0⟩
  · intro i pub h
    have := publishLoop_count ops message impl.publishers 0 i pub h
    rwa [Nat.zero_add] at this
  · intro i pub m h h0 hmem
    have hev : (Publisher.publish ops impl message).2 = _ :=
      publishLoop_events ops message impl.publishers 0
    rw [hev, List.mem_map] at hmem
    obtain ⟨e, he, heq⟩ := hmem
    rw [List.mem_filter] at he
    obtain ⟨he1, he2⟩ := he
    have hidx : e.1 = i := by injection heq
    have hget : impl.publishers[e.1]? = some e.2 := by
      obtain ⟨_, hlt, hval⟩ := List.mem_enumFrom he1
      simp only [Nat.zero_add, Nat.sub_zero] at hlt hval
      rw [hval]
      exact List.getElem?_eq_getElem hlt
    rw [hidx, h] at hget
    have hpub : pub = e.2 := by simpa using hget
    rw [← hpub, h0] at he2
    simp at he2

/-- C1, on the fake transport: with 0 subscribers it receives no `publish` call, and
with 1 subscriber it receives exactly one call per `publish`. -/
theorem publish_forwards_exactly_to_subscribed_witness :
    (Publisher.publish fakeOps (advertisedFake ["raw_pub"] [("raw_pub", 0)] false)
        testImage).2.count (Event.publish 0 testImage) = 0 ∧
    (Publisher.publish fakeOps (advertisedFake ["raw_pub"] [("raw_pub", 1)] false)
        testImage).2.count (Event.publish 0 testImage) = 1 :=
  ⟨(publish_forwards_exactly_to_subscribed fakeOps
      (advertisedFake ["raw_pub"] [("raw_pub", 0)] false) testImage).2.1 0
      { transport_name := "raw", subscribers := 0, keeps_count_on_shutdown := false,
        advertised_on := some "/cam/raw", published := [] } (by decide),
   (publish_forwards_exactly_to_subscribed fakeOps
      (advertisedFake ["raw_pub"] [("raw_pub", 1)] false) testImage).2.1 0
      { transport_name := "raw", subscribers := 1, keeps_count_on_shutdown := false,
        advertised_on := some "/cam/raw", published := [] } (by decide)⟩

/-- C2 fails as stated: two transports that report 2147483648 subscribers each sum
to 4294967296, and `getNumSubscribers` returns 0. -/
theorem getNumSubscribers_wraps_at_uint32 :
    Publisher.getNumSubscribers fakeOps
        (advertisedFake ["raw_pub", "compressed_pub"]
          [("raw_pub", 2147483648), ("compressed_pub", 2147483648)] false) = 0 ∧
    ((advertisedFake ["raw_pub", "compressed_pub"]
          [("raw_pub", 2147483648), ("compressed_pub", 2147483648)] false).publishers.map
        fakeOps.getNumSubscribers).sum = 4294967296 := by
  decide

/-- C2 (amended): `Publisher::getNumSubscribers` returns the sum, modulo 2^32, of
the subscriber counts the instances of the collection report at the time of the call;
it is the exact sum whenever that sum is below 2^32. -/
theorem getNumSubscribers_is_sum_mod_uint32 (ops : PluginOps σ) (impl : Impl σ) :
    Publisher.getNumSubscribers ops impl =
        (impl.publishers.map ops.getNumSubscribers).sum % UINT32_MOD ∧
    ((impl.publishers.map ops.getNumSubscribers).sum < UINT32_MOD →
      Publisher.getNumSubscribers ops impl =
        (impl.publishers.map ops.getNumSubscribers).sum) := by
  refine ⟨getNumSubscribers_eq ops impl, fun h => ?_⟩
  rw [getNumSubscribers_eq, Nat.mod_eq_of_lt h]

/-- C2 (amended), on the fake transports: counts 2 and 3 give 5. -/
theorem getNumSubscribers_is_sum_mod_uint32_witness :
    Publisher.getNumSubscribers fakeOps
        (advertisedFake ["raw_pub", "compressed_pub"] [("raw_pub", 2), ("compressed_pub", 3)]
          false) = 5 :=
  ((getNumSubscribers_is_sum_mod_uint32 fakeOps
      (advertisedFake ["raw_pub", "compressed_pub"] [("raw_pub", 2), ("compressed_pub", 3)]
        false)).2 (by decide)).trans (by decide)

/-- C8: on a newly constructed publisher on which `advertise` has not been called,
whatever the registry declares and whatever other operations were made, the collection
of plugin instances is empty: `getNumSubscribers` returns 0, `publish` calls no plugin
and changes nothing, and `getTopic` returns the empty string. -/
theorem no_instances_before_advertise (ops : PluginOps σ) (loader : ClassLoader σ)
    (script : List Op) (message : Image) (h : ∀ op ∈ script, op.isAdvertise = false) :
    (Publisher.run ops (Publisher.Publisher loader) script).publishers = [] ∧
    Publisher.getNumSubscribers ops (Publisher.run ops (Publisher.Publisher loader) script) = 0 ∧
    (Publisher.publish ops (Publisher.run ops (Publisher.Publisher loader) script) message).2 =
      [] ∧
    (Publisher.publish ops (Publisher.run ops (Publisher.Publisher loader) script)
      message).1.publishers = [] ∧
    Publisher.getTopic (Publisher.run ops (Publisher.Publisher loader) script) = "" := by
  obtain ⟨ht, hl⟩ := run_preserves ops script (Publisher.Publisher loader) h
  have hnil : (Publisher.run ops (Publisher.Publisher loader) script).publishers = [] :=
    List.length_eq_zero.1 hl
  refine ⟨hnil, ?_, ?_, ?_, ht⟩
  · simp [Publisher.getNumSubscribers, hnil]
  · simp [Publisher.publish, hnil, publishLoop]
  · simp [Publisher.publish, hnil, publishLoop]

/-- C8, on the fake registry: after a `publish`, a `shutdown` and a write to the topic
map, and no `advertise`, the subscriber count is 0 and the topic is empty. -/
theorem no_instances_before_advertise_witness :
    Publisher.getNumSubscribers fakeOps
        (Publisher.run fakeOps
          (Publisher.Publisher (fakeLoader ["raw_pub"] [("raw_pub", 4)] true))
          [Op.publish testImage, Op.shutdown, Op.assign "raw" "/cam/raw_custom"]) = 0 ∧
    Publisher.getTopic
        (Publisher.run fakeOps
          (Publisher.Publisher (fakeLoader ["raw_pub"] [("raw_pub", 4)] true))
          [Op.publish testImage, Op.shutdown, Op.assign "raw" "/cam/raw_custom"]) = "" :=
  ⟨(no_instances_before_advertise fakeOps (fakeLoader ["raw_pub"] [("raw_pub", 4)] true)
      [Op.publish testImage, Op.shutdown, Op.assign "raw" "/cam/raw_custom"] testImage
      (by simp [Op.isAdvertise])).2.1,
   (no_instances_before_advertise fakeOps (fakeLoader ["raw_pub"] [("raw_pub", 4)] true)
      [Op.publish testImage, Op.shutdown, Op.assign "raw" "/cam/raw_custom"] testImage
      (by simp [Op.isAdvertise])).2.2.2.2⟩

/-- C9 fails as stated: after `advertise` on `/cam`, a further `advertise` on `/other`
through the same handle changes the value of `getTopic` from `/cam` to `/other`. -/
theorem further_advertise_changes_topic :
    Publisher.getTopic (advertisedFake ["raw_pub"] [("raw_pub", 1)] false) = "/cam" ∧
    Publisher.getTopic
        (Publisher.step fakeOps (advertisedFake ["raw_pub"] [("raw_pub", 1)] false)
          (Op.advertise rootHandle "/other" 1 none none none false)).1 = "/other" := by
  decide

/-- C9 (amended): after `Publisher::advertise(nh, topic, ...)` returns, `getTopic`
equals `nh.resolveName(topic)` whether or not any plugin loaded, and that call resolved
the name exactly once; `publish`, topic-map mutation and `shutdown` leave `getTopic`
unchanged, and a further `advertise(nh2, topic2, ...)` sets it to
`nh2.resolveName(topic2)`. -/
theorem getTopic_is_resolved_base_topic (ops : PluginOps σ) (impl : Impl σ) (nh : NodeHandle)
    (topic : String) (queue_size : Nat) (connect_cb disconnect_cb : SubscriberStatusCallback)
    (tracked_object : VoidPtr) (latch : Bool) :
    Publisher.getTopic (Publisher.advertise ops impl nh topic queue_size connect_cb
        disconnect_cb tracked_object latch).1 = nh.resolveName topic ∧
    (Publisher.advertise ops impl nh topic queue_size connect_cb disconnect_cb tracked_object
        latch).2.filter Event.isResolveName = [Event.resolveName topic] ∧
    (∀ script : List Op, (∀ op ∈ script, op.isAdvertise = false) →
      Publisher.getTopic (Publisher.run ops (Publisher.advertise ops impl nh topic queue_size
        connect_cb disconnect_cb tracked_object latch).1 script) = nh.resolveName topic) ∧
    (∀ op : Op, op.isAdvertise = false →
      (Publisher.step ops (Publisher.advertise ops impl nh topic queue_size connect_cb
        disconnect_cb tracked_object latch).1 op).2.filter Event.isResolveName = []) ∧
    (∀ (nh2 : NodeHandle) (topic2 : String) (q2 : Nat) (cc2 dc2 : SubscriberStatusCallback)
        (t2 : VoidPtr) (latch2 : Bool),
      Publisher.getTopic (Publisher.step ops (Publisher.advertise ops impl nh topic queue_size
        connect_cb disconnect_cb tracked_object latch).1
        (Op.advertise nh2 topic2 q2 cc2 dc2 t2 latch2)).1 = nh2.resolveName topic2) := by
  refine ⟨rfl, ?_, ?_, ?_, ?_⟩
  · show (Event.resolveName topic :: _).filter Event.isResolveName = _
    rw [List.filter_cons]
    simp only [Event.isResolveName, if_true]
    rw [advertiseLoop_resolve_events]
  · intro script h
    exact (run_preserves ops script _ h).1
  · intro op h
    exact (step_preserves ops _ op h).2.2
  · intro nh2 topic2 q2 cc2 dc2 t2 latch2
    rfl

/-- C9 (amended), on the fake registry: after `advertise` on `/cam`, a `publish`, a
write to the topic map and a `shutdown` leave `getTopic` at `/cam`. -/
theorem getTopic_is_resolved_base_topic_witness :
    Publisher.getTopic
        (Publisher.run fakeOps
          (Publisher.advertise fakeOps
            (Publisher.Publisher (fakeLoader ["raw_pub"] [] false))
            rootHandle "/cam" 1 none none none false).1
          [Op.publish testImage, Op.clear, Op.shutdown]) = "/cam" :=
  (getTopic_is_resolved_base_topic fakeOps
      (Publisher.Publisher (fakeLoader ["raw_pub"] [] false))
      rootHandle "/cam" 1 none none none false).2.2.1
    [Op.publish testImage, Op.clear, Op.shutdown] (by simp [Op.isAdvertise])

/-- C10: erasing the last occurrence of `_pub` from `t ++ "_pub"` gives `t` back; hence,
when every declared identifier ends in `_pub`, the lookup names `advertise` passes to
the registry for the default topic map are exactly the declared identifiers. -/
theorem lookup_names_round_trip (ops : PluginOps σ) (loader : ClassLoader σ) (nh : NodeHandle)
    (topic : String) (queue_size : Nat) (connect_cb disconnect_cb : SubscriberStatusCallback)
    (tracked_object : VoidPtr) (latch : Bool)
    (h : ∀ d ∈ loader.getDeclaredClasses, ∃ t : String, d = t ++ "_pub") :
    (∀ t : String, erase_last (t ++ "_pub") "_pub" = t) ∧
    (∀ n : String,
      Event.createClassInstance n ∈
          (Publisher.advertise ops (Publisher.Publisher loader) nh topic queue_size connect_cb
            disconnect_cb tracked_object latch).2 ↔
        n ∈ loader.getDeclaredClasses) := by
  refine ⟨erase_last_append_pub, fun n => ?_⟩
  have hloop := advertiseLoop_mem_create ops (Publisher.Publisher loader).loader nh
    (nh.resolveName topic) queue_size connect_cb disconnect_cb tracked_object latch
    (Publisher.Publisher loader).topic_map n (Publisher.Publisher loader).publishers
  have hcons : Event.createClassInstance n ∈
      (Publisher.advertise ops (Publisher.Publisher loader) nh topic queue_size connect_cb
        disconnect_cb tracked_object latch).2 ↔
      Event.createClassInstance n ∈
        (advertiseLoop ops (Publisher.Publisher loader).loader nh (nh.resolveName topic)
          queue_size connect_cb disconnect_cb tracked_object latch
          (Publisher.Publisher loader).topic_map (Publisher.Publisher loader).publishers).2 := by
    show Event.createClassInstance n ∈ Event.resolveName topic :: _ ↔ _
    simp
  rw [hcons, hloop]
  constructor
  · rintro ⟨e, he, rfl⟩
    have hk : e.1 ∈ (Publisher.Publisher loader).topic_map.keys :=
      List.mem_map_of_mem Prod.fst he
    obtain ⟨d, hd, hke⟩ := (mem_keys_constructed loader e.1).1 hk
    obtain ⟨t, rfl⟩ := h d hd
    rw [hke, erase_last_append_pub]
    exact hd
  · intro hn
    obtain ⟨t, rfl⟩ := h n hn
    have hk : t ∈ (Publisher.Publisher loader).topic_map.keys :=
      (mem_keys_constructed loader t).2 ⟨_, hn, (erase_last_append_pub t).symm⟩
    obtain ⟨e, he, rfl⟩ := List.mem_map.1 hk
    exact ⟨e, he, rfl⟩

/-- C10, on the fake registry: with `raw_pub` and `compressed_pub` declared, `advertise`
asks the registry for `raw_pub`. -/
theorem lookup_names_round_trip_witness :
    Event.createClassInstance "raw_pub" ∈
      (Publisher.advertise fakeOps
        (Publisher.Publisher (fakeLoader ["raw_pub", "compressed_pub"] [("raw_pub", 1)] false))
        rootHandle "/cam" 1 none none none false).2 :=
  ((lookup_names_round_trip fakeOps
      (fakeLoader ["raw_pub", "compressed_pub"] [("raw_pub", 1)] false)
      rootHandle "/cam" 1 none none none false
      (by
        intro d hd
        rcases List.mem_cons.1 hd with hd | hd
        · exact ⟨"raw", hd.trans (by decide)⟩
        · rcases List.mem_cons.1 hd with hd | hd
          · exact ⟨"compressed", hd.trans (by decide)⟩
          · cases hd)).2 "raw_pub").2 (by decide)

/-- C6 fails as stated: a fake transport that keeps reporting 2 subscribers after its
`shutdown` is still in the collection after `Publisher::shutdown`, called once on the
handle or twice with the second call on a copy, and `getNumSubscribers` returns 2. -/
theorem shutdown_does_not_clear_collection :
    World.getNumSubscribers fakeOps
        (World.shutdown fakeOps (fakeWorld ["raw_pub"] [("raw_pub", 2)] true).1
          (fakeWorld ["raw_pub"] [("raw_pub", 2)] true).2)
        (fakeWorld ["raw_pub"] [("raw_pub", 2)] true).2 = some 2 ∧
    World.getNumSubscribers fakeOps
        (World.shutdown fakeOps
          (World.shutdown fakeOps (fakeWorld ["raw_pub"] [("raw_pub", 2)] true).1
            (fakeWorld ["raw_pub"] [("raw_pub", 2)] true).2)
          (World.copyPublisher (fakeWorld ["raw_pub"] [("raw_pub", 2)] true).1
            (fakeWorld ["raw_pub"] [("raw_pub", 2)] true).2).2)
        (fakeWorld ["raw_pub"] [("raw_pub", 2)] true).2 = some 2 ∧
    ((World.deref
        (World.shutdown fakeOps (fakeWorld ["raw_pub"] [("raw_pub", 2)] true).1
          (fakeWorld ["raw_pub"] [("raw_pub", 2)] true).2)
        (fakeWorld ["raw_pub"] [("raw_pub", 2)] true).2).map
      (fun impl => impl.publishers.length)) = some 1 := by
  decide

/-- C6 (amended): `Publisher::shutdown`, called once or twice, on the handle or on a
copy of it, completes and calls `shutdown` on every instance of the collection, which
it keeps; afterwards `getNumSubscribers`, through the handle or the copy, returns the
sum modulo 2^32 of the counts the instances report after their shutdown, and so
returns 0 when every instance reports 0 once shut down. -/
theorem shutdown_keeps_instances (ops : PluginOps σ) (w : World σ) (self : Publisher)
    (impl : Impl σ) (via1 via2 query : Bool) (hd : w.deref self = some impl) :
    (World.shutdown ops w (if via1 then (w.copyPublisher self).2 else self)).deref
        (if query then (w.copyPublisher self).2 else self) =
      some { impl with publishers := impl.publishers.map ops.shutdown } ∧
    (World.shutdown ops w (if via1 then (w.copyPublisher self).2 else self)).trace =
      w.trace ++ (List.range' 0 impl.publishers.length).map
        (fun i => (self.impl_, Event.shutdown i)) ∧
    World.getNumSubscribers ops
        (World.shutdown ops w (if via1 then (w.copyPublisher self).2 else self))
        (if query then (w.copyPublisher self).2 else self) =
      some ((impl.publishers.map (fun pub => ops.getNumSubscribers (ops.shutdown pub))).sum %
        UINT32_MOD) ∧
    World.getNumSubscribers ops
        (World.shutdown ops
          (World.shutdown ops w (if via1 then (w.copyPublisher self).2 else self))
          (if via2 then (w.copyPublisher self).2 else self))
        (if query then (w.copyPublisher self).2 else self) =
      some ((impl.publishers.map
        (fun pub => ops.getNumSubscribers (ops.shutdown (ops.shutdown pub)))).sum %
        UINT32_MOD) ∧
    ((∀ pub ∈ impl.publishers, ops.getNumSubscribers (ops.shutdown pub) = 0) →
      World.getNumSubscribers ops
        (World.shutdown ops w (if via1 then (w.copyPublisher self).2 else self))
        (if query then (w.copyPublisher self).2 else self) = some 0) ∧
    ((∀ pub ∈ impl.publishers, ops.getNumSubscribers (ops.shutdown (ops.shutdown pub)) = 0) →
      World.getNumSubscribers ops
        (World.shutdown ops
          (World.shutdown ops w (if via1 then (w.copyPublisher self).2 else self))
          (if via2 then (w.copyPublisher self).2 else self))
        (if query then (w.copyPublisher self).2 else self) = some 0) := by
  have hcopy : (w.copyPublisher self).2 = self := rfl
  simp only [hcopy, ite_self]
  have h1 := deref_shutdown ops w self impl hd
  have h2 := deref_shutdown ops _ self _ h1
  have n1 : World.getNumSubscribers ops (World.shutdown ops w self) self =
      some ((impl.publishers.map (fun pub => ops.getNumSubscribers (ops.shutdown pub))).sum %
        UINT32_MOD) := by
    unfold World.getNumSubscribers
    rw [h1, Option.map_some', getNumSubscribers_eq]
    simp [Function.comp_def]
  have n2 : World.getNumSubscribers ops (World.shutdown ops (World.shutdown ops w self) self)
        self =
      some ((impl.publishers.map
        (fun pub => ops.getNumSubscribers (ops.shutdown (ops.shutdown pub)))).sum %
        UINT32_MOD) := by
    unfold World.getNumSubscribers
    rw [h2, Option.map_some', getNumSubscribers_eq]
    simp [Function.comp_def]
  refine ⟨h1, trace_shutdown ops w self impl hd, n1, n2, ?_, ?_⟩
  · intro hz
    rw [n1, List.map_congr_left hz]
    simp
  · intro hz
    rw [n2, List.map_congr_left hz]
    simp

/-- C6 (amended), on fake transports that report 0 once shut down: with counts 2 and
3 before, `getNumSubscribers` through the original returns 0 after a `shutdown` on the
copy. -/
theorem shutdown_keeps_instances_witness :
    World.getNumSubscribers fakeOps
        (World.shutdown fakeOps
          (fakeWorld ["raw_pub", "compressed_pub"] [("raw_pub", 2), ("compressed_pub", 3)]
            false).1
          (World.copyPublisher
            (fakeWorld ["raw_pub", "compressed_pub"] [("raw_pub", 2), ("compressed_pub", 3)]
              false).1
            (fakeWorld ["raw_pub", "compressed_pub"] [("raw_pub", 2), ("compressed_pub", 3)]
              false).2).2)
        (fakeWorld ["raw_pub", "compressed_pub"] [("raw_pub", 2), ("compressed_pub", 3)]
          false).2 = some 0 :=
  (shutdown_keeps_instances fakeOps
      (fakeWorld ["raw_pub", "compressed_pub"] [("raw_pub", 2), ("compressed_pub", 3)] false).1
      (fakeWorld ["raw_pub", "compressed_pub"] [("raw_pub", 2), ("compressed_pub", 3)] false).2
      (advertisedFake ["raw_pub", "compressed_pub"] [("raw_pub", 2), ("compressed_pub", 3)]
        false)
      true false false rfl).2.2.2.2.1 (by decide)

/-- C7: the copy constructor shares the state block of the original: it allocates no
block and leaves every block, topic map included, as it is, whereas the default
constructor allocates one; an operation made through the copy acts on the block the
original points to; and after every script of operations made through either handle,
`getTopic`, `getTopicMap` and `getNumSubscribers` give the same results through both. -/
theorem copy_shares_state (ops : PluginOps σ) (w : World σ) (original : Publisher)
    (loader : ClassLoader σ) (script : List (Bool × Op)) :
    (w.copyPublisher original).1.heap = w.heap ∧
    (w.newPublisher loader).1.heap.length = w.heap.length + 1 ∧
    World.getTopicMap (w.copyPublisher original).1 (w.copyPublisher original).2 =
      World.getTopicMap w original ∧
    (∀ op : Op,
      (World.step ops (w.copyPublisher original).1 (w.copyPublisher original).2 op).deref
          original =
        (w.deref original).map (fun impl => (Publisher.step ops impl op).1)) ∧
    World.getTopic
        (World.run ops original (w.copyPublisher original).2 (w.copyPublisher original).1 script)
        original =
      World.getTopic
        (World.run ops original (w.copyPublisher original).2 (w.copyPublisher original).1 script)
        (w.copyPublisher original).2 ∧
    World.getTopicMap
        (World.run ops original (w.copyPublisher original).2 (w.copyPublisher original).1 script)
        original =
      World.getTopicMap
        (World.run ops original (w.copyPublisher original).2 (w.copyPublisher original).1 script)
        (w.copyPublisher original).2 ∧
    World.getNumSubscribers ops
        (World.run ops original (w.copyPublisher original).2 (w.copyPublisher original).1 script)
        original =
      World.getNumSubscribers ops
        (World.run ops original (w.copyPublisher original).2 (w.copyPublisher original).1 script)
        (w.copyPublisher original).2 := by
  refine ⟨rfl, ?_, rfl, ?_, rfl, rfl, rfl⟩
  · simp [World.newPublisher]
  · intro op
    exact deref_step ops w original op

/-- C7, on the fake registry: after a `shutdown` made through the copy and a write to
the topic map made through the original, both handles see the same topic map. -/
theorem copy_shares_state_witness :
    World.getTopicMap
        (World.run fakeOps (fakeWorld ["raw_pub"] [("raw_pub", 2)] false).2
          (World.copyPublisher (fakeWorld ["raw_pub"] [("raw_pub", 2)] false).1
            (fakeWorld ["raw_pub"] [("raw_pub", 2)] false).2).2
          (World.copyPublisher (fakeWorld ["raw_pub"] [("raw_pub", 2)] false).1
            (fakeWorld ["raw_pub"] [("raw_pub", 2)] false).2).1
          [(true, Op.shutdown), (false, Op.assign "raw" "/cam/raw_custom")])
        (fakeWorld ["raw_pub"] [("raw_pub", 2)] false).2 =
      World.getTopicMap
        (World.run fakeOps (fakeWorld ["raw_pub"] [("raw_pub", 2)] false).2
          (World.copyPublisher (fakeWorld ["raw_pub"] [("raw_pub", 2)] false).1
            (fakeWorld ["raw_pub"] [("raw_pub", 2)] false).2).2
          (World.copyPublisher (fakeWorld ["raw_pub"] [("raw_pub", 2)] false).1
            (fakeWorld ["raw_pub"] [("raw_pub", 2)] false).2).1
          [(true, Op.shutdown), (false, Op.assign "raw" "/cam/raw_custom")])
        (World.copyPublisher (fakeWorld ["raw_pub"] [("raw_pub", 2)] false).1
          (fakeWorld ["raw_pub"] [("raw_pub", 2)] false).2).2 :=
  (copy_shares_state fakeOps (fakeWorld ["raw_pub"] [("raw_pub", 2)] false).1
    (fakeWorld ["raw_pub"] [("raw_pub", 2)] false).2
    (fakeLoader [] [] false)
    [(true, Op.shutdown), (false, Op.assign "raw" "/cam/raw_custom")]).2.2.2.2.2.1

end claims

end image_transport
